import Mathlib

/-!
Shallow embedding of the Risk Visualization & Marker Filtering Engine of the
PrevenTect repository (component `AnalyticsMapView`).  JavaScript numbers that
can flow through the marker-colouring code are modelled as `JSNum` (NaN or a
rational); a risk-score field, which in the source can be `undefined`, `null`
or a number, is modelled as `ScoreVal`.  All arithmetic is exact rational
arithmetic; the HSL colour strings built by the source are modelled as `HSL`
triples of their numeric components.
-/

namespace PrevenTect

/-- A JavaScript number: either NaN or an (exactly modelled) numeric value. -/
inductive JSNum where
  | nan : JSNum
  | num : ℚ → JSNum
deriving DecidableEq

/-- A JS value in a risk-score position: the field may be absent
(`undefined`), `null`, or a number (possibly NaN). -/
inductive ScoreVal where
  | undef : ScoreVal
  | null : ScoreVal
  | val : JSNum → ScoreVal
deriving DecidableEq

/-- The JS `Number()` coercion as applied to a score value:
`Number(undefined) = NaN`, `Number(null) = 0`, numbers unchanged. -/
def jsNumber : ScoreVal → JSNum
  | .undef => .nan
  | .null => .num 0
  | .val x => x

/-- JS `<` on numbers: any comparison involving NaN is false. -/
def JSNum.ltb : JSNum → JSNum → Bool
  | .num a, .num b => decide (a < b)
  | _, _ => false

/-- JS `>=` on numbers: any comparison involving NaN is false. -/
def JSNum.geb : JSNum → JSNum → Bool
  | .num a, .num b => decide (b ≤ a)
  | _, _ => false

/-- `Math.min`: NaN-propagating minimum. -/
def jsMin : JSNum → JSNum → JSNum
  | .num a, .num b => .num (min a b)
  | _, _ => .nan

/-- `Math.max`: NaN-propagating maximum. -/
def jsMax : JSNum → JSNum → JSNum
  | .num a, .num b => .num (max a b)
  | _, _ => .nan

/-- An `hsl(hue, sat%, light%)` colour, by its numeric components. -/
structure HSL where
  hue : ℚ
  sat : ℚ
  light : ℚ
deriving DecidableEq

/-- The fixed neutral gray `hsl(0, 0%, 60%)` used for filtered-out markers. -/
def grayColor : HSL := ⟨0, 0, 60⟩

/-- The gradient-colour block shared by `createMarkers` (lines 253-256) and
the not-filtered branch of the recompute effect (lines 398-402):
`normalizedRisk = Math.max(minVal, Math.min(maxVal, Number(riskValue)))`,
`t = Number.isNaN(normalizedRisk) ? 0 : (normalizedRisk - minVal) / (maxVal - minVal)`,
`hue = 120 * (1 - t)`, colour `hsl(hue, 80%, 50%)`. -/
def gradientColor (riskValue : ScoreVal) (minVal maxVal : ℚ) : HSL :=
  let normalizedRisk := jsMax (.num minVal) (jsMin (.num maxVal) (jsNumber riskValue))
  let t : ℚ :=
    match normalizedRisk with
    | .nan => 0
    | .num v => (v - minVal) / (maxVal - minVal)
  ⟨120 * (1 - t), 80, 50⟩

/-- A marker's derived visual: fill colour plus the filtered-out flag. -/
structure MarkerVisual where
  fillColor : HSL
  isFiltered : Bool
deriving DecidableEq

/-- The per-marker colour computation of the recompute effect
(`AnalyticsMapView`, lines 376-403): `isFiltered = Number(riskValue) < threshold`;
filtered markers get the fixed gray, the rest the score gradient. -/
def colorFor (riskValue : ScoreVal) (minVal maxVal threshold : ℚ) : MarkerVisual :=
  if (jsNumber riskValue).ltb (.num threshold) then ⟨grayColor, true⟩
  else ⟨gradientColor riskValue minVal maxVal, false⟩

/-- The active risk dimension. -/
inductive RiskMode where
  | water : RiskMode
  | wind : RiskMode
deriving DecidableEq

/-- Lower end of the active mode's score domain (water 1, wind 25). -/
def modeMinVal : RiskMode → ℚ
  | .water => 1
  | .wind => 25

/-- Upper end of the active mode's score domain (water 6, wind 38). -/
def modeMaxVal : RiskMode → ℚ
  | .water => 6
  | .wind => 38

/-- The risk attributes attached to a building record.  `GWR_EGID` is
modelled as `Option String`: `none` stands for an absent (or falsy) id, for
which `checkClaim` issues no fetch; `some e` for a truthy id, with `e` the
result of `String(egid)`. -/
structure RiskData where
  GWR_EGID : Option String := none
  STURM : ScoreVal := .undef
  HOCHWASSER_FLIESSGEWAESSER : ScoreVal := .undef
deriving DecidableEq

/-- A `MarkerInput` as passed to `addMarkers`/`createMarkers`. -/
structure MarkerInput where
  lat : ℚ
  lng : ℚ
  address : String
  riskData : Option RiskData := none
deriving DecidableEq

/-- `coord.riskData?.HOCHWASSER_FLIESSGEWAESSER` resp. `coord.riskData?.STURM`
for the active mode; an absent `riskData` yields `undefined`. -/
def activeScore (mode : RiskMode) (c : MarkerInput) : ScoreVal :=
  match mode, c.riskData with
  | _, none => .undef
  | .water, some rd => rd.HOCHWASSER_FLIESSGEWAESSER
  | .wind, some rd => rd.STURM

/-- The threshold the active mode reads (`waterThreshold[0]` / `windThreshold[0]`). -/
def modeThreshold (mode : RiskMode) (waterThreshold windThreshold : ℚ) : ℚ :=
  match mode with
  | .water => waterThreshold
  | .wind => windThreshold

/-- Full per-marker visual of the recompute effect for one record. -/
def recomputeVisual (mode : RiskMode) (waterThreshold windThreshold : ℚ)
    (c : MarkerInput) : MarkerVisual :=
  colorFor (activeScore mode c) (modeMinVal mode) (modeMaxVal mode)
    (modeThreshold mode waterThreshold windThreshold)

/-- The per-marker colour of `createMarkers` (lines 237-256): the pure score
gradient; note that this path takes no threshold argument at all. -/
def createMarkerColor (mode : RiskMode) (c : MarkerInput) : HSL :=
  gradientColor (activeScore mode c) (modeMinVal mode) (modeMaxVal mode)

/-- The predicate of `visibleMarkersCount` (lines 1103-1112):
`Number(riskValue) >= threshold` for the active mode. -/
def matchesFilter (mode : RiskMode) (waterThreshold windThreshold : ℚ)
    (c : MarkerInput) : Bool :=
  (jsNumber (activeScore mode c)).geb
    (.num (modeThreshold mode waterThreshold windThreshold))

/-- `visibleMarkersCount`: number of records matching the active filter. -/
def visibleMarkersCount (mode : RiskMode) (waterThreshold windThreshold : ℚ)
    (markersData : List MarkerInput) : ℕ :=
  (markersData.filter (matchesFilter mode waterThreshold windThreshold)).length

/-- A camera pose (center, zoom, pitch, bearing). -/
structure Pose where
  centerLng : ℚ
  centerLat : ℚ
  zoom : ℚ
  pitch : ℚ
  bearing : ℚ
deriving DecidableEq

/-- A command issued to the external map surface.  `flyTo` carries center,
zoom, pitch and bearing; `fitBounds` carries the extended points, the maxZoom
cap, padding and pitch; `jumpTo` restores a full pose instantaneously. -/
inductive CameraCmd where
  | flyTo (centerLng centerLat zoom pitch bearing : ℚ) : CameraCmd
  | fitBounds (points : List (ℚ × ℚ)) (maxZoom padding pitch : ℚ) : CameraCmd
  | jumpTo (pose : Pose) : CameraCmd
deriving DecidableEq

/-- Whether a camera command is a `flyTo`. -/
def CameraCmd.isFlyTo : CameraCmd → Bool
  | .flyTo _ _ _ _ _ => true
  | _ => false

/-- A rendered marker element: the closed-over input record, the fill colour
of its SVG pin, and its `data-selected` attribute. -/
structure MarkerEl where
  coord : MarkerInput
  color : HSL
  selected : Bool
deriving DecidableEq

/-- The marker elements built by `createMarkers` (lines 209-303): one element
per record, coloured by the threshold-free gradient, initially unselected. -/
def createMarkersEls (mode : RiskMode) (coordinates : List MarkerInput) :
    List MarkerEl :=
  coordinates.map fun c => ⟨c, createMarkerColor mode c, false⟩

/-- The camera branch of `createMarkers` (lines 305-329), with the
`Math.random()` sample passed in explicitly: one record flies to it
(zoom 14, pitch 60, bearing `rand * 40 - 20`); several records fit bounds
(maxZoom 18, padding 120, pitch 60); none does nothing. -/
def createMarkersCamera (rand : ℚ) : List MarkerInput → List CameraCmd
  | [] => []
  | [c] => [.flyTo c.lng c.lat 14 60 (rand * 40 - 20)]
  | c :: c2 :: rest =>
      [.fitBounds ((c :: c2 :: rest).map fun k => (k.lng, k.lat)) 18 120 60]

/-- `createMarkers`: the rendered elements together with the camera commands. -/
def createMarkers (mode : RiskMode) (rand : ℚ)
    (coordinates : List MarkerInput) : List MarkerEl × List CameraCmd :=
  (createMarkersEls mode coordinates, createMarkersCamera rand coordinates)

/-- The `selectedBuilding` state set by a marker click. -/
structure SelectedBuilding where
  address : String
  riskData : Option RiskData
  markerId : String
deriving DecidableEq

/-- The component state of `AnalyticsMapView` relevant to the engine.
`pose` is the current pose of the external map engine, read back via
`getCenter`/`getZoom`/`getPitch`/`getBearing`; camera commands emitted by the
operations are applied by that engine, which is outside the model — only the
recompute effect reads and restores the pose, which is what the claims about
it concern. -/
structure EngineState where
  markersData : List MarkerInput
  markerEls : List MarkerEl
  selectedBuilding : Option SelectedBuilding
  riskMode : RiskMode
  waterThreshold : ℚ
  windThreshold : ℚ
  pose : Pose
deriving DecidableEq

/-- The imperative-handle `addMarkers` (lines 575-596): stores the records,
replaces the rendered elements via `createMarkers` and forwards its camera
commands.  It does not touch `selectedBuilding`. -/
def addMarkers (st : EngineState) (rand : ℚ)
    (coordinates : List MarkerInput) : EngineState × List CameraCmd :=
  let built := createMarkers st.riskMode rand coordinates
  ({ st with markersData := coordinates, markerEls := built.1 }, built.2)

/-- The imperative-handle `clearMarkers` (lines 597-613): removes every
element, clears the selection and the stored records. -/
def clearMarkers (st : EngineState) : EngineState :=
  { st with markerEls := [], selectedBuilding := none, markersData := [] }

/-- The selection-restore step of the recompute effect (lines 464-475):
`querySelector` finds the first element whose `data-id` equals the saved
`markerId` and re-applies the selected emphasis to it alone. -/
def emphasizeFirst (id : String) : List MarkerEl → List MarkerEl
  | [] => []
  | e :: es =>
      if e.coord.address = id then { e with selected := true } :: es
      else e :: emphasizeFirst id es

/-- The marker elements rebuilt by the recompute effect (lines 348-449):
one per stored record, coloured by the threshold-aware `recomputeVisual`,
initially unselected. -/
def recomputeEls (st : EngineState) : List MarkerEl :=
  st.markersData.map fun c =>
    ⟨c, (recomputeVisual st.riskMode st.waterThreshold st.windThreshold c).fillColor,
      false⟩

/-- The recompute effect (lines 335-478), triggered by a mode or threshold
change: a no-op when no records are stored; otherwise it saves the camera
pose, rebuilds every element with the filtered colours of `recomputeVisual`
(initially unselected), restores the pose with a single `jumpTo`, and
re-emphasizes the saved selection's marker. -/
def recomputeEffect (st : EngineState) : EngineState × List CameraCmd :=
  if st.markersData = [] then (st, [])
  else
    ({ st with markerEls :=
        match st.selectedBuilding with
        | none => recomputeEls st
        | some sel => emphasizeFirst sel.markerId (recomputeEls st) },
     [CameraCmd.jumpTo st.pose])

/-- The marker click handler (lines 417-442, identical in both marker-building
paths), for a click on the element at position `i`: it reads that element's
`data-selected`, resets every element to unselected, then either leaves the
selection cleared (toggle-off) or emphasizes the clicked element and stores
its building as selected. -/
def clickMarker (st : EngineState) (i : ℕ) : EngineState :=
  match st.markerEls.get? i with
  | none => st
  | some el =>
    let cleared := st.markerEls.map fun e => { e with selected := false }
    if el.selected then
      { st with markerEls := cleared, selectedBuilding := none }
    else
      { st with
        markerEls := cleared.set i { el with selected := true },
        selectedBuilding :=
          some ⟨el.coord.address, el.coord.riskData, el.coord.address⟩ }

/-- Number of elements carrying the selected emphasis. -/
def selectedCount (els : List MarkerEl) : ℕ :=
  (els.filter fun e => e.selected).length

/-- The egid `checkClaim` reads off a selection:
`selectedBuilding?.riskData?.GWR_EGID`. -/
def selectionEgid : Option SelectedBuilding → Option String
  | none => none
  | some sel => sel.riskData.bind fun rd => rd.GWR_EGID

/-- State of the claims display: `displayed = none` models `claims === null`;
`displayed = some e` models a fetched claims list for egid `e`.  `issued`
records every fetch ever started, in issue order. -/
structure ClaimsMachine where
  displayed : Option String
  issued : List String
deriving DecidableEq

/-- Events driving the claims display: a run of the `checkClaim` effect for a
new selection (carrying its egid, `none` when absent), or the successful
resolution of the `i`-th issued fetch. -/
inductive ClaimsEvent where
  | select : Option String → ClaimsEvent
  | resolve : ℕ → ClaimsEvent

/-- One step of the `checkClaim` effect (lines 494-521).  On a selection
change the effect synchronously sets `claims` to null and, when an egid is
present, starts a fetch.  When a fetch resolves, its `setClaims(data)` is
applied unconditionally — the source has no generation counter or staleness
guard, so a resolution always overwrites the display. -/
def claimsStep (cm : ClaimsMachine) : ClaimsEvent → ClaimsMachine
  | .select none => { cm with displayed := none }
  | .select (some egid) => ⟨none, cm.issued ++ [egid]⟩
  | .resolve i =>
      match cm.issued.get? i with
      | some egid => { cm with displayed := some egid }
      | none => cm

/-- Run of the claims machine over an event trace. -/
def claimsRun (cm : ClaimsMachine) (evs : List ClaimsEvent) : ClaimsMachine :=
  evs.foldl claimsStep cm

/-- Outcome of one `createSignedUrl` call in the `loadImages` loop. -/
inductive SignResult where
  | ok : String → SignResult
  | err : SignResult
deriving DecidableEq

/-- The `loadImages` loop (lines 524-550): iterate over the sign outcomes in
order; an error skips that path (`continue`); a success pushes its URL. -/
def loadImages : List SignResult → List String
  | [] => []
  | .ok u :: rest => u :: loadImages rest
  | .err :: rest => loadImages rest

/-- Sample pose for concrete instances. -/
def poseA : Pose := ⟨8, 47, 12, 45, 10⟩

/-- Risk data with a numeric water score. -/
def riskWater (q : ℚ) : RiskData := { HOCHWASSER_FLIESSGEWAESSER := .val (.num q) }

/-- Record with a numeric water score. -/
def recWater (addr : String) (q : ℚ) : MarkerInput := ⟨47, 8, addr, some (riskWater q)⟩

/-- Record whose water score is the number NaN. -/
def recNaN : MarkerInput := ⟨47, 8, "nan-marker", some { HOCHWASSER_FLIESSGEWAESSER := .val .nan }⟩

/-- Record whose water score is null. -/
def recNull : MarkerInput := ⟨47, 8, "null-marker", some { HOCHWASSER_FLIESSGEWAESSER := .null }⟩

/-- Record with no risk data at all (scores undefined). -/
def recUndef : MarkerInput := ⟨47, 8, "undef-marker", none⟩

/-- Sample state with two water records, threshold 3, nothing selected. -/
def stateTwo : EngineState :=
  ⟨[recWater "m1" 6, recWater "m2" 1],
   createMarkersEls .water [recWater "m1" 6, recWater "m2" 1],
   none, .water, 3, 25, poseA⟩

/-- `stateTwo` with marker `m1` selected (as a click on it leaves it). -/
def stateTwoSel : EngineState :=
  clickMarker stateTwo 0

/-- `colorFor` on a plain numeric score, in closed form. -/
theorem colorFor_num (s a b t : ℚ) :
    colorFor (.val (.num s)) a b t =
      if s < t then ⟨grayColor, true⟩
      else ⟨⟨120 * (1 - (max a (min b s) - a) / (b - a)), 80, 50⟩, false⟩ := by
  by_cases hst : s < t
  · simp [colorFor, JSNum.ltb, jsNumber, hst]
  · simp [colorFor, JSNum.ltb, jsNumber, hst, gradientColor, jsMax, jsMin]

/-- Claim C3: for a numeric score `s` and a threshold `t` in the active
mode's domain, `belowThreshold` is exactly `s < t`; a below-threshold score
gets the fixed gray, an at/above-threshold score gets
`hsl(120 * (1 - t'), 80%, 50%)` with `t'` the clamped-normalized score, and
the hue is exactly 120 at the domain minimum and exactly 0 at the domain
maximum. -/
theorem c3_numeric_threshold_and_gradient (mode : RiskMode) (s t : ℚ)
    (ht1 : modeMinVal mode ≤ t) (ht2 : t ≤ modeMaxVal mode) :
    (colorFor (.val (.num s)) (modeMinVal mode) (modeMaxVal mode) t).isFiltered
        = decide (s < t)
    ∧ (s < t →
        (colorFor (.val (.num s)) (modeMinVal mode) (modeMaxVal mode) t).fillColor
          = grayColor)
    ∧ (t ≤ s →
        (colorFor (.val (.num s)) (modeMinVal mode) (modeMaxVal mode) t).fillColor
          = ⟨120 * (1 - (max (modeMinVal mode) (min (modeMaxVal mode) s) - modeMinVal mode)
              / (modeMaxVal mode - modeMinVal mode)), 80, 50⟩)
    ∧ (t ≤ s → s = modeMinVal mode →
        (colorFor (.val (.num s)) (modeMinVal mode) (modeMaxVal mode) t).fillColor.hue
          = 120)
    ∧ (t ≤ s → s = modeMaxVal mode →
        (colorFor (.val (.num s)) (modeMinVal mode) (modeMaxVal mode) t).fillColor.hue
          = 0) := by
  rw [colorFor_num]
  by_cases hst : s < t
  · rw [if_pos hst]
    exact ⟨by simp [hst], fun _ => rfl,
      fun hts => absurd hst (not_lt.mpr hts),
      fun hts _ => absurd hst (not_lt.mpr hts),
      fun hts _ => absurd hst (not_lt.mpr hts)⟩
  · rw [if_neg hst]
    refine ⟨by simp [hst], fun hlt => absurd hlt hst, fun _ => rfl, ?_, ?_⟩
    · intro _ hs
      subst hs
      cases mode <;> simp [modeMinVal, modeMaxVal, min_def, max_def] <;> norm_num
    · intro _ hs
      subst hs
      cases mode <;> simp [modeMinVal, modeMaxVal, min_def, max_def] <;> norm_num

/-- Witness for C3: water mode, score 6, threshold 3 — not filtered, hue
exactly 0 at the domain maximum. -/
theorem c3_witness :
    (modeMinVal RiskMode.water ≤ (3:ℚ) ∧ (3:ℚ) ≤ modeMaxVal RiskMode.water)
    ∧ (colorFor (.val (.num 6)) (modeMinVal .water) (modeMaxVal .water) 3).isFiltered
        = decide ((6:ℚ) < 3)
    ∧ (colorFor (.val (.num 6)) (modeMinVal .water) (modeMaxVal .water) 3).fillColor.hue
        = 0 := by
  have h := c3_numeric_threshold_and_gradient .water 6 3
    (by norm_num [modeMinVal]) (by norm_num [modeMaxVal])
  exact ⟨⟨by norm_num [modeMinVal], by norm_num [modeMaxVal]⟩, h.1,
    h.2.2.2.2 (by norm_num) (by norm_num [modeMaxVal])⟩

/-- Counterexample to C2: a NaN score (also an absent/undefined score, which
`Number()` coerces to NaN) is NOT treated as below-threshold by the recompute
effect — `NaN < threshold` is false — and it is painted the full green
`hsl(120, 80%, 50%)`, not the neutral gray. -/
theorem c2_counterexample :
    (recomputeVisual .water 3 25 recNaN).isFiltered = false
    ∧ (recomputeVisual .water 3 25 recNaN).fillColor = ⟨120, 80, 50⟩
    ∧ (recomputeVisual .water 3 25 recNaN).fillColor ≠ grayColor
    ∧ recomputeVisual .water 3 25 recUndef = ⟨⟨120, 80, 50⟩, false⟩ := by
  have h : recomputeVisual .water 3 25 recNaN = ⟨⟨120, 80, 50⟩, false⟩ := by
    simp [recomputeVisual, colorFor, gradientColor, jsNumber, activeScore, recNaN,
      jsMax, jsMin, JSNum.ltb, modeMinVal, modeMaxVal, modeThreshold]
  have h2 : recomputeVisual .water 3 25 recUndef = ⟨⟨120, 80, 50⟩, false⟩ := by
    simp [recomputeVisual, colorFor, gradientColor, jsNumber, activeScore, recUndef,
      jsMax, jsMin, JSNum.ltb, modeMinVal, modeMaxVal, modeThreshold]
  exact ⟨by rw [h], by rw [h], by rw [h]; decide, h2⟩

/-- Claim C2 as amended: a null score is below-threshold and gray (because
`Number(null) = 0` lies below every in-domain threshold), and never matches
the filter; but a NaN or undefined score is NOT below-threshold — it is
painted green `hsl(120, 80%, 50%)` — though it also never matches the
filter count. -/
theorem c2_amended_null_nan (mode : RiskMode) (wt wd : ℚ) (c : MarkerInput)
    (hwt : 1 ≤ wt) (hwd : 25 ≤ wd) :
    (activeScore mode c = .null →
        recomputeVisual mode wt wd c = ⟨grayColor, true⟩
        ∧ matchesFilter mode wt wd c = false)
    ∧ (activeScore mode c = .undef ∨ activeScore mode c = .val .nan →
        recomputeVisual mode wt wd c = ⟨⟨120, 80, 50⟩, false⟩
        ∧ matchesFilter mode wt wd c = false) := by
  have hth : (0:ℚ) < modeThreshold mode wt wd := by
    cases mode <;> simp [modeThreshold] <;> linarith
  constructor
  · intro hnull
    constructor
    · simp [recomputeVisual, colorFor, hnull, jsNumber, JSNum.ltb, hth]
    · simp [matchesFilter, hnull, jsNumber, JSNum.geb]
      linarith
  · intro hnn
    have hnan : jsNumber (activeScore mode c) = .nan := by
      rcases hnn with h | h <;> simp [h, jsNumber]
    constructor
    · simp [recomputeVisual, colorFor, hnan, JSNum.ltb, gradientColor, jsMax, jsMin]
    · simp [matchesFilter, hnan, JSNum.geb]

/-- Witness for C2 (amended): water mode, threshold 3, a record with a null
water score — gray, below-threshold, not matching. -/
theorem c2_amended_witness :
    recomputeVisual .water 3 25 recNull = ⟨grayColor, true⟩
    ∧ matchesFilter .water 3 25 recNull = false :=
  (c2_amended_null_nan .water 3 25 recNull (by norm_num) (by norm_num)).1 rfl

/-- Counterexample to C5: `createMarkers` (i.e. `load`) ignores the stored
threshold entirely.  With threshold 3 a record with water score 1 should be
gray per the claim, but load paints it the full green gradient colour; the
recompute effect with the same filter grays it, so load and recompute
disagree. -/
theorem c5_counterexample :
    ((createMarkers .water 0 [recWater "2" 1]).1.map MarkerEl.color) = [⟨120, 80, 50⟩]
    ∧ (⟨120, 80, 50⟩ : HSL) ≠ grayColor
    ∧ recomputeVisual .water 3 25 (recWater "2" 1) = ⟨grayColor, true⟩ := by
  refine ⟨?_, by decide, by decide⟩
  simp [createMarkers, createMarkersEls, createMarkerColor, gradientColor, jsNumber,
    activeScore, recWater, riskWater, jsMax, jsMin, modeMinVal, modeMaxVal]

/-- Claim C5 as amended: the visuals produced by load are the
threshold-independent gradient colours (`createMarkerColor`, which takes no
threshold argument); they agree with the recompute-effect visual exactly on
records the current filter does not gray out. -/
theorem c5_amended_load_gradient (mode : RiskMode) (rand wt wd : ℚ)
    (coords : List MarkerInput) :
    ((createMarkers mode rand coords).1.map MarkerEl.color)
        = coords.map (createMarkerColor mode)
    ∧ (∀ c ∈ coords, (recomputeVisual mode wt wd c).isFiltered = false →
        createMarkerColor mode c = (recomputeVisual mode wt wd c).fillColor) := by
  constructor
  · simp [createMarkers, createMarkersEls, List.map_map]
  · intro c _ hfilt
    unfold recomputeVisual colorFor at *
    by_cases h : (jsNumber (activeScore mode c)).ltb
        (.num (modeThreshold mode wt wd)) = true
    · simp [h] at hfilt
    · simp only [Bool.not_eq_true] at h
      simp [h, createMarkerColor]

/-- Witness for C5 (amended): a record with water score 6 under threshold 3
is not filtered, and its load colour equals its recompute colour. -/
theorem c5_amended_witness :
    createMarkerColor .water (recWater "1" 6)
      = (recomputeVisual .water 3 25 (recWater "1" 6)).fillColor :=
  (c5_amended_load_gradient .water 0 3 25 [recWater "1" 6]).2
    (recWater "1" 6) (by simp) (by decide)

/-- Counterexample to C8: in the `loadImages` loop a failed
`createSignedUrl` is skipped silently — the displayed URL list simply
omits the broken image (one URL for two paths), with no per-image
"image unavailable" entry surfaced for it. -/
theorem c8_counterexample :
    loadImages [SignResult.err, SignResult.ok "u2"] = ["u2"]
    ∧ (loadImages [SignResult.err, SignResult.ok "u2"]).length
        ≠ ([SignResult.err, SignResult.ok "u2"] : List SignResult).length := by
  decide

/-- Claim C8 as amended: a failure to sign one image does not block the
others — the displayed list is exactly the successfully signed URLs, in
order, with failed paths silently dropped (no placeholder). -/
theorem c8_amended_partial_success (results : List SignResult) :
    loadImages results = results.filterMap fun r =>
      match r with
      | .ok u => some u
      | .err => none := by
  induction results with
  | nil => rfl
  | cons r rest ih => cases r <;> simp [loadImages, ih]

/-- Claim C9: `load` with exactly one record flies to it; with several
records it fits bounds with the maxZoom 18 cap; with no records it renders
zero markers and issues no camera command at all. -/
theorem c9_load_camera (mode : RiskMode) (rand : ℚ) (coords : List MarkerInput) :
    (coords = [] → createMarkers mode rand coords = ([], []))
    ∧ (∀ c, coords = [c] → (createMarkers mode rand coords).2
        = [CameraCmd.flyTo c.lng c.lat 14 60 (rand * 40 - 20)])
    ∧ (2 ≤ coords.length → (createMarkers mode rand coords).2
        = [CameraCmd.fitBounds (coords.map fun k => (k.lng, k.lat)) 18 120 60]) := by
  refine ⟨?_, ?_, ?_⟩
  · rintro rfl; rfl
  · rintro c rfl; rfl
  · intro h
    rcases coords with _ | ⟨c, _ | ⟨c2, rest⟩⟩
    · simp at h
    · simp at h
    · rfl

/-- Witness for C9: the three camera behaviours at concrete record lists. -/
theorem c9_witness :
    createMarkers .water 0 ([] : List MarkerInput) = ([], [])
    ∧ (createMarkers .water 0 [recUndef]).2
        = [CameraCmd.flyTo recUndef.lng recUndef.lat 14 60 (0 * 40 - 20)]
    ∧ (createMarkers .water 0 [recUndef, recNull]).2
        = [CameraCmd.fitBounds ([recUndef, recNull].map fun k => (k.lng, k.lat)) 18 120 60] :=
  ⟨(c9_load_camera .water 0 []).1 rfl,
   (c9_load_camera .water 0 [recUndef]).2.1 recUndef rfl,
   (c9_load_camera .water 0 [recUndef, recNull]).2.2 (by decide)⟩

/-- Claim C10: the single-record `flyTo` issued by load has its bearing
drawn from the random sample — always in `[-20, 20)` for a sample in
`[0, 1)` — while center, zoom 14 and pitch 60 are fully determined by the
input; the rendered markers do not depend on the sample, and two runs with
different samples issue `flyTo` commands differing only in bearing. -/
theorem c10_random_bearing (mode : RiskMode) (c : MarkerInput) (r r2 : ℚ)
    (hr0 : 0 ≤ r) (hr1 : r < 1) :
    (createMarkers mode r [c]).2 = [CameraCmd.flyTo c.lng c.lat 14 60 (r * 40 - 20)]
    ∧ (createMarkers mode r2 [c]).2 = [CameraCmd.flyTo c.lng c.lat 14 60 (r2 * 40 - 20)]
    ∧ (-20 ≤ r * 40 - 20 ∧ r * 40 - 20 < 20)
    ∧ (createMarkers mode r [c]).1 = (createMarkers mode r2 [c]).1
    ∧ (r ≠ r2 → r * 40 - 20 ≠ r2 * 40 - 20) := by
  refine ⟨rfl, rfl, ⟨by linarith, by linarith⟩, rfl, ?_⟩
  intro hne heq
  exact hne (by linarith)

/-- Witness for C10: samples 0 and 1/2 give bearings -20 and 0 — same
command shape, different bearing. -/
theorem c10_witness :
    (createMarkers .water (0:ℚ) [recUndef]).2
      = [CameraCmd.flyTo recUndef.lng recUndef.lat 14 60 ((0:ℚ) * 40 - 20)]
    ∧ ((0:ℚ) * 40 - 20 ≠ (1/2 : ℚ) * 40 - 20) := by
  have h := c10_random_bearing .water recUndef 0 (1/2) (by norm_num) (by norm_num)
  exact ⟨h.1, h.2.2.2.2 (by norm_num)⟩

/-- Counterexample to C1: `checkClaim` has no generation counter — a fetch
resolution is applied unconditionally.  With selections A then B both
in flight, if B's fetch resolves first and A's second, the display ends on
A's claims, not B's. -/
theorem c1_counterexample :
    (claimsRun ⟨none, []⟩
      [.select (some "A"), .select (some "B"), .resolve 1, .resolve 0]).displayed
        = some "A"
    ∧ ("A" : String) ≠ "B" := by
  exact ⟨rfl, by decide⟩

/-- Claim C1 as amended: each selection change clears the display and issues
a fetch, and resolutions overwrite the display unconditionally, so the
displayed claims are those of the most recently resolved fetch: when the two
fetches resolve in issue order the display ends on B's claims, but when A's
stale fetch resolves after B's it overwrites the display with A's. -/
theorem c1_amended_last_resolution (a b : String) :
    claimsRun ⟨none, []⟩ [.select (some a), .select (some b)] = ⟨none, [a, b]⟩
    ∧ claimsRun ⟨none, []⟩ [.select (some a), .select (some b), .resolve 0, .resolve 1]
        = ⟨some b, [a, b]⟩
    ∧ claimsRun ⟨none, []⟩ [.select (some a), .select (some b), .resolve 1, .resolve 0]
        = ⟨some a, [a, b]⟩ :=
  ⟨rfl, rfl, rfl⟩

/-- Counterexample to C4: `addMarkers` (load) does not clear the selection —
a building selected before the load is still selected afterwards. -/
theorem c4_counterexample :
    ((addMarkers stateTwoSel 0 [recWater "x" 2]).1).selectedBuilding
        = some ⟨"m1", some (riskWater 6), "m1"⟩
    ∧ some (⟨"m1", some (riskWater 6), "m1"⟩ : SelectedBuilding)
        ≠ (none : Option SelectedBuilding) := by
  exact ⟨by decide, by decide⟩

/-- Claim C4 as amended: `clearMarkers` forces the selection to Unselected,
but `addMarkers` (load) leaves the selection state exactly as it was. -/
theorem c4_amended_clear_only (st : EngineState) (rand : ℚ)
    (coords : List MarkerInput) :
    ((addMarkers st rand coords).1).selectedBuilding = st.selectedBuilding
    ∧ (clearMarkers st).selectedBuilding = none :=
  ⟨rfl, rfl⟩

/-- Elements touched by `emphasizeFirst` that carry the emphasis have the
emphasized id, provided the input elements were all unemphasized. -/
theorem emphasizeFirst_selected (id : String) :
    ∀ l : List MarkerEl, (∀ e ∈ l, e.selected = false) →
      ∀ e ∈ emphasizeFirst id l, e.selected = true → e.coord.address = id := by
  intro l
  induction l with
  | nil =>
    intro _ e he
    simp [emphasizeFirst] at he
  | cons a as ih =>
    intro hl e he hsel
    rw [emphasizeFirst] at he
    by_cases hid : a.coord.address = id
    · rw [if_pos hid] at he
      rcases List.mem_cons.mp he with heq | hmem
      · rw [heq]
        exact hid
      · simp [hl e (List.mem_cons_of_mem a hmem)] at hsel
    · rw [if_neg hid] at he
      rcases List.mem_cons.mp he with heq | hmem
      · rw [heq] at hsel
        simp [hl a (List.mem_cons_self a as)] at hsel
      · exact ih (fun e2 he2 => hl e2 (List.mem_cons_of_mem a he2)) e hmem hsel

/-- The rebuilt recompute elements are all unemphasized. -/
theorem recomputeEls_unselected (st : EngineState) :
    ∀ e ∈ recomputeEls st, e.selected = false := by
  intro e he
  obtain ⟨x, -, rfl⟩ := List.mem_map.mp he
  rfl

/-- Claim C6: a recompute with records loaded preserves the camera pose
(restoring it with a single `jumpTo` — never a `flyTo`) and the selection by
id: the stored selection is unchanged and any re-emphasized element carries
the selection's marker id; a recompute with no records loaded is a no-op. -/
theorem c6_recompute_preserves (st : EngineState) :
    (st.markersData ≠ [] →
        (recomputeEffect st).1.pose = st.pose
        ∧ (recomputeEffect st).1.selectedBuilding = st.selectedBuilding
        ∧ (recomputeEffect st).2 = [CameraCmd.jumpTo st.pose]
        ∧ (∀ cmd ∈ (recomputeEffect st).2, cmd.isFlyTo = false)
        ∧ (∀ e ∈ (recomputeEffect st).1.markerEls, e.selected = true →
            st.selectedBuilding.map SelectedBuilding.markerId = some e.coord.address))
    ∧ (st.markersData = [] → recomputeEffect st = (st, [])) := by
  constructor
  · intro h
    have hre : recomputeEffect st =
        ({ st with markerEls :=
            match st.selectedBuilding with
            | none => recomputeEls st
            | some sel => emphasizeFirst sel.markerId (recomputeEls st) },
         [CameraCmd.jumpTo st.pose]) := by
      unfold recomputeEffect
      rw [if_neg h]
    refine ⟨by rw [hre], by rw [hre], by rw [hre], ?_, ?_⟩
    · intro cmd hc
      rw [hre] at hc
      rcases List.mem_singleton.mp hc with rfl
      rfl
    · intro e he hsel
      rw [hre] at he
      cases hs : st.selectedBuilding with
      | none =>
        rw [hs] at he
        simp only at he
        simp [recomputeEls_unselected st e he] at hsel
      | some sel =>
        rw [hs] at he
        simp only at he
        have := emphasizeFirst_selected sel.markerId (recomputeEls st)
          (recomputeEls_unselected st) e he hsel
        simp [this]
  · intro h
    unfold recomputeEffect
    rw [if_pos h]

/-- Witness for C6: the two-record state — pose preserved, one `jumpTo`,
selection unchanged. -/
theorem c6_witness :
    (recomputeEffect stateTwo).1.pose = stateTwo.pose
    ∧ (recomputeEffect stateTwo).2 = [CameraCmd.jumpTo stateTwo.pose]
    ∧ (recomputeEffect stateTwo).1.selectedBuilding = stateTwo.selectedBuilding := by
  have h := (c6_recompute_preserves stateTwo).1 (by decide)
  exact ⟨h.1, h.2.2.1, h.2.1⟩

/-- A list of all-unemphasized elements has `selectedCount` zero. -/
theorem selectedCount_zero (l : List MarkerEl)
    (hl : ∀ e ∈ l, e.selected = false) : selectedCount l = 0 := by
  induction l with
  | nil => rfl
  | cons a as ih =>
    have ha : a.selected = false := hl a (List.mem_cons_self a as)
    have has : selectedCount as = 0 :=
      ih fun e he => hl e (List.mem_cons_of_mem a he)
    simpa [selectedCount, List.filter_cons, ha] using has

/-- Clearing every element's emphasis leaves all of them unemphasized. -/
theorem clear_all_unselected (l : List MarkerEl) :
    ∀ e ∈ l.map (fun e => { e with selected := false }), e.selected = false := by
  intro e he
  obtain ⟨x, -, rfl⟩ := List.mem_map.mp he
  rfl

/-- Setting one emphasized element into an all-unemphasized list yields
`selectedCount` one. -/
theorem selectedCount_set_one (x : MarkerEl) (hx : x.selected = true) :
    ∀ l : List MarkerEl, ∀ i, i < l.length →
      (∀ e ∈ l, e.selected = false) → selectedCount (l.set i x) = 1 := by
  intro l
  induction l with
  | nil =>
    intro i hi _
    simp at hi
  | cons a as ih =>
    intro i hi hl
    cases i with
    | zero =>
      have has : selectedCount as = 0 :=
        selectedCount_zero as fun e he => hl e (List.mem_cons_of_mem a he)
      simpa [List.set, selectedCount, List.filter_cons, hx] using has
    | succ n =>
      have ha : a.selected = false := hl a (List.mem_cons_self a as)
      have := ih n (Nat.lt_of_succ_lt_succ (by simpa using hi))
        (fun e he => hl e (List.mem_cons_of_mem a he))
      simpa [List.set, selectedCount, List.filter_cons, ha] using this

/-- One click keeps the at-most-one-emphasis bound, whatever the state. -/
theorem clickMarker_count_le (st : EngineState) (i : ℕ)
    (h : selectedCount st.markerEls ≤ 1) :
    selectedCount (clickMarker st i).markerEls ≤ 1 := by
  unfold clickMarker
  cases hh : st.markerEls.get? i with
  | none => exact h
  | some el =>
    by_cases hsel : el.selected = true
    · simp [hsel, selectedCount_zero _ (clear_all_unselected st.markerEls)]
    · simp only [Bool.not_eq_true] at hsel
      have hi : i < st.markerEls.length := List.get?_eq_some.mp hh |>.1
      simp only [hsel, Bool.false_eq_true, if_false]
      rw [selectedCount_set_one { el with selected := true } rfl _ i
        (by simpa using hi) (clear_all_unselected st.markerEls)]

/-- Any sequence of clicks keeps the at-most-one-emphasis bound. -/
theorem foldl_clickMarker_count (clicks : List ℕ) (st : EngineState)
    (h : selectedCount st.markerEls ≤ 1) :
    selectedCount ((clicks.foldl clickMarker st).markerEls) ≤ 1 := by
  induction clicks generalizing st with
  | nil => exact h
  | cons i rest ih => exact ih _ (clickMarker_count_le st i h)

/-- Claim C7: clicks keep at most one marker emphasized; clicking the
selected marker toggles off — selection cleared, no emphasis left, and the
claims display cleared by the ensuing `checkClaim` run — while clicking an
unselected marker transfers selection and emphasis to it alone. -/
theorem c7_click_selection (st : EngineState) (i : ℕ) (el : MarkerEl)
    (h : st.markerEls.get? i = some el) :
    selectedCount (clickMarker st i).markerEls ≤ 1
    ∧ (el.selected = true →
        (clickMarker st i).selectedBuilding = none
        ∧ selectedCount (clickMarker st i).markerEls = 0
        ∧ ∀ cm : ClaimsMachine,
            (claimsStep cm
              (.select (selectionEgid (clickMarker st i).selectedBuilding))).displayed
              = none)
    ∧ (el.selected = false →
        (clickMarker st i).selectedBuilding
            = some ⟨el.coord.address, el.coord.riskData, el.coord.address⟩
        ∧ selectedCount (clickMarker st i).markerEls = 1)
    ∧ (∀ clicks : List ℕ, selectedCount st.markerEls ≤ 1 →
        selectedCount ((clicks.foldl clickMarker st).markerEls) ≤ 1) := by
  have hi : i < st.markerEls.length := List.get?_eq_some.mp h |>.1
  have hA : el.selected = true →
      clickMarker st i =
        { st with markerEls := st.markerEls.map fun e => { e with selected := false },
                  selectedBuilding := none } := by
    intro hs
    unfold clickMarker
    rw [h]
    simp [hs]
  have hB : el.selected = false →
      clickMarker st i =
        { st with
            markerEls := (st.markerEls.map fun e => { e with selected := false }).set i
              { el with selected := true },
            selectedBuilding :=
              some ⟨el.coord.address, el.coord.riskData, el.coord.address⟩ } := by
    intro hs
    unfold clickMarker
    rw [h]
    simp [hs]
  have hcount0 :
      selectedCount (st.markerEls.map fun e => { e with selected := false }) = 0 :=
    selectedCount_zero _ (clear_all_unselected st.markerEls)
  have hcount1 :
      selectedCount ((st.markerEls.map fun e => { e with selected := false }).set i
        { el with selected := true }) = 1 :=
    selectedCount_set_one { el with selected := true } rfl _ i
      (by simpa using hi) (clear_all_unselected st.markerEls)
  refine ⟨?_, ?_, ?_, fun clicks hcl => foldl_clickMarker_count clicks st hcl⟩
  · by_cases hs : el.selected = true
    · rw [hA hs]
      simp [hcount0]
    · simp only [Bool.not_eq_true] at hs
      rw [hB hs]
      simp [hcount1]
  · intro hs
    rw [hA hs]
    exact ⟨rfl, hcount0, fun cm => rfl⟩
  · intro hs
    rw [hB hs]
    exact ⟨rfl, hcount1⟩

/-- Witness for C7: clicking the first (unselected) marker of the two-record
state selects it and leaves exactly one emphasized element. -/
theorem c7_witness :
    (clickMarker stateTwo 0).selectedBuilding
        = some ⟨(recWater "m1" 6).address, (recWater "m1" 6).riskData,
            (recWater "m1" 6).address⟩
    ∧ selectedCount (clickMarker stateTwo 0).markerEls = 1 :=
  (c7_click_selection stateTwo 0
    ⟨recWater "m1" 6, createMarkerColor .water (recWater "m1" 6), false⟩ rfl).2.2.1 rfl

end PrevenTect
